import Mathlib

/-!
Verification development for the vLLM PD router
(`src/routers/http/vllm_pd_router.rs`) and the CLI prefill-argument
parsing (`sgl-router/src/main.rs`).

The Rust code is shallowly embedded: JSON values become an inductive
type, the HTTP layer becomes explicit request/response records with the
outbound network modelled as a function from requests to optional
responses, and each async dispatch function becomes a pure function
returning the list of outbound requests actually sent together with its
result.
-/

namespace VllmRouter

/-- Model of `serde_json::Value`.  Numbers are restricted to integers;
the router only ever writes the number `1` into a body. -/
inductive Json where
  | null : Json
  | bool (b : Bool) : Json
  | num (n : Int) : Json
  | str (s : String) : Json
  | arr (xs : List Json) : Json
  | obj (fields : List (String × Json)) : Json
  deriving Repr, BEq, Inhabited

/-- Replace the value at key `k` in an association list, or append the
binding when the key is absent (model of `serde_json::Map::insert`
keeping existing position). -/
def setKey (k : String) (v : Json) : List (String × Json) → List (String × Json)
  | [] => [(k, v)]
  | (k', v') :: rest => if k' = k then (k, v) :: rest else (k', v') :: setKey k v rest

/-- Model of `Value::get(&str)`: field lookup, `None` on non-objects. -/
def getKey (j : Json) (k : String) : Option Json :=
  match j with
  | .obj fields => (fields.find? (fun p => p.1 = k)).map Prod.snd
  | _ => none

/-- Model of `value[key] = v` (`IndexMut<&str> for Value`): inserts into
an object, treats `Null` as an empty object, and panics (`none`) on any
other variant. -/
def indexSet (j : Json) (k : String) (v : Json) : Option Json :=
  match j with
  | .obj fields => some (.obj (setKey k v fields))
  | .null => some (.obj [(k, v)])
  | _ => none

/-- Model of `prepare_prefill_request` (vllm_pd_router.rs lines 57-64): set
`max_tokens` to 1 and, when the field is present, `max_completion_tokens`
to 1.  `none` models the Rust panic on a non-object, non-null body. -/
def prepare_prefill_request (request : Json) : Option Json := do
  let r1 ← indexSet request "max_tokens" (Json.num 1)
  if (getKey r1 "max_completion_tokens").isSome then
    indexSet r1 "max_completion_tokens" (Json.num 1)
  else
    pure r1

/-- JSON string escaping used by the serializer model. -/
def escapeChar (c : Char) : String :=
  if c = '"' then "\\\"" else if c = '\\' then "\\\\" else String.singleton c

/-- Escape a whole string. -/
def escapeStr (s : String) : String :=
  String.join (s.data.map escapeChar)

mutual

/-- Model of `serde_json::to_string` (total on this `Json` type; the
`map_err` branches guarding it in the router are dead for object
bodies). -/
def Json.serialize : Json → String
  | .null => "null"
  | .bool b => if b then "true" else "false"
  | .num n => toString n
  | .str s => "\"" ++ escapeStr s ++ "\""
  | .arr xs => "[" ++ serializeArr xs ++ "]"
  | .obj fields => "\x7b" ++ serializeObj fields ++ "\x7d"

/-- Serialize array elements, comma separated. -/
def serializeArr : List Json → String
  | [] => ""
  | [x] => Json.serialize x
  | x :: xs => Json.serialize x ++ "," ++ serializeArr xs

/-- Serialize object fields, comma separated. -/
def serializeObj : List (String × Json) → String
  | [] => ""
  | [(k, v)] => "\"" ++ escapeStr k ++ "\":" ++ Json.serialize v
  | (k, v) :: fs => "\"" ++ escapeStr k ++ "\":" ++ Json.serialize v ++ "," ++ serializeObj fs

end

/-- Model of Rust `String::replace('-', "")`: drop every dash. -/
def removeDashes (s : String) : String :=
  String.mk (s.data.filter (fun c => c ≠ '-'))

/-- Model of `generate_vllm_request_id` (lines 36-39).  The fresh v4 UUID drawn
inside the Rust function is passed in as `uuid_hyphenated` (the
`Uuid::new_v4().to_string()` rendering); the function removes its dashes
and builds the identifier with `format!`. -/
def generate_vllm_request_id (prefill_addr decode_addr uuid_hyphenated : String) : String :=
  let uuid := removeDashes uuid_hyphenated
  "___prefill_addr_" ++ prefill_addr ++ "___decode_addr_" ++ decode_addr ++ "_" ++ uuid

/-- Lowercase hexadecimal digit, as produced by the `uuid` crate's
`to_string`. -/
def isHexDigit (c : Char) : Bool :=
  c.isDigit || ('a' ≤ c && c ≤ 'f')

/-- The hyphenated rendering of a UUID: five groups of lowercase hex
digits of lengths 8, 4, 4, 4, 12 joined by `-`. -/
def isUuidHyphenated (s : String) : Prop :=
  ∃ a b c d e : List Char,
    a.length = 8 ∧ b.length = 4 ∧ c.length = 4 ∧ d.length = 4 ∧ e.length = 12 ∧
    (a ++ b ++ c ++ d ++ e).all isHexDigit = true ∧
    s.data = a ++ '-' :: (b ++ '-' :: (c ++ '-' :: (d ++ '-' :: e)))

/-- The two vLLM service kinds used by service discovery. -/
inductive ServiceType where
  | prefill
  | decode
  deriving Repr, DecidableEq

/-- The call `stripPrefixChars pat s` returns the remainder of `s` after the
pattern `pat`, or `none` when `pat` is not a prefix of `s`. -/
def stripPrefixChars : List Char → List Char → Option (List Char)
  | [], s => some s
  | _ :: _, [] => none
  | p :: ps, c :: cs => if p = c then stripPrefixChars ps cs else none

/-- Left-to-right non-overlapping replacement of `pat` by `repl`,
fuelled by the input length (one unit per emitted position, always
enough for a nonempty pattern). -/
def replaceAllAux (pat repl : List Char) : Nat → List Char → List Char
  | 0, s => s
  | _ + 1, [] => []
  | fuel + 1, c :: rest =>
    match stripPrefixChars pat (c :: rest) with
    | some rest' => repl ++ replaceAllAux pat repl fuel rest'
    | none => c :: replaceAllAux pat repl fuel rest

/-- Model of Rust `str::replace` for a nonempty pattern. -/
def strReplace (s pat repl : String) : String :=
  String.mk (replaceAllAux pat.data repl.data s.data.length s.data)

/-- Model of `get_zmq_address` (lines 41-55).  The `ServiceRegistry` side-lookup
lives outside this crate and is passed in as `registry`.  The URL is
stripped of its scheme, the lookup is consulted, and on a miss the
HTTP address itself is returned. -/
def get_zmq_address (registry : String → ServiceType → Option String)
    (http_url : String) (service_type : ServiceType) : String :=
  let http_address := strReplace (strReplace http_url "http://" "") "https://" ""
  match registry http_address service_type with
  | some zmq_addr => zmq_addr
  | none => http_address

/-- An outbound HTTP request built by the router. -/
structure HttpRequest where
  method : String
  url : String
  headers : List (String × String)
  body : String
  deriving Repr, BEq

/-- A fully received upstream HTTP response (status, headers with
lowercase names as normalized by reqwest, and the drained body). -/
structure HttpResponse where
  status : Nat
  headers : List (String × String)
  body : String
  deriving Repr, BEq

/-- The response the router hands back to its own caller. -/
structure AxumResponse where
  status : Nat
  headers : List (String × String)
  body : String
  deriving Repr, BEq

/-- Model of `StatusCode::is_success`. -/
def is2xx (status : Nat) : Bool :=
  200 ≤ status && status < 300

/-- The outbound network: `some` is a fully received response, `none`
models a transport error (send or body read failure). -/
def Network := HttpRequest → Option HttpResponse

/-- The prefill-leg request built on the discovered path
(lines 209-214): POST to `http://{prefill_http}{path}` with the
modified body and the coordination header. -/
def discoveredPrefillRequest (prefill_http path request_id body : String) : HttpRequest :=
  { method := "POST"
    url := "http://" ++ prefill_http ++ path
    headers := [("Content-Type", "application/json"), ("X-Request-Id", request_id)]
    body := body }

/-- The decode-leg request built on the discovered path
(lines 228-233): POST to `http://{decode_http}{path}` with the original
body and the same coordination header. -/
def discoveredDecodeRequest (decode_http path request_id body : String) : HttpRequest :=
  { method := "POST"
    url := "http://" ++ decode_http ++ path
    headers := [("Content-Type", "application/json"), ("X-Request-Id", request_id)]
    body := body }

/-- The inline prefill-body mutation at lines 195-199 of the discovered
path: `prefill_request["max_tokens"] = Number(1)` and, when present,
`prefill_request["max_completion_tokens"] = Number(1)` on a clone of the
body.  `none` models the Rust panic on a non-object, non-null body. -/
def preparePrefillInline (request_json : Json) : Option Json := do
  let p1 ← indexSet request_json "max_tokens" (Json.num 1)
  if (getKey p1 "max_completion_tokens").isSome then
    indexSet p1 "max_completion_tokens" (Json.num 1)
  else
    pure p1

/-- Model of `process_vllm_two_stage_request_discovered` (lines 175-256), as a
pure function of the network.  Returns the list of outbound requests
actually sent together with the result; the outer `none` models the
panic of the inline body mutation on an unsuitable body.
On success the decode response's status, headers and body are copied
verbatim (lines 245-253 copy every header). -/
def process_vllm_two_stage_request_discovered (send : Network) (uuid : String)
    (request_json : Json) (prefill_http prefill_zmq decode_http decode_zmq path : String) :
    Option (List HttpRequest × Except String AxumResponse) := do
  let request_id := generate_vllm_request_id prefill_zmq decode_zmq uuid
  let prefill_request ← preparePrefillInline request_json
  let prefill_request_str := prefill_request.serialize
  let decode_request_str := request_json.serialize
  let prefillReq := discoveredPrefillRequest prefill_http path request_id prefill_request_str
  match send prefillReq with
  | none => some ([prefillReq], .error "Prefill request failed")
  | some prefill_response =>
    if is2xx prefill_response.status then
      let decodeReq := discoveredDecodeRequest decode_http path request_id decode_request_str
      match send decodeReq with
      | none => some ([prefillReq, decodeReq], .error "Decode request failed")
      | some decode_response =>
        some ([prefillReq, decodeReq],
          .ok { status := decode_response.status
                headers := decode_response.headers
                body := decode_response.body })
    else
      some ([prefillReq], .error ("Prefill server error " ++ toString prefill_response.status))

/-- A prefill- or decode-leg request built on the legacy path
(lines 288-293 and 322-327): POST to `{worker_url}{path}` with
Content-Type, Authorization and the coordination header. -/
def legacyStageRequest (worker_url path api_key request_id body : String) : HttpRequest :=
  { method := "POST"
    url := worker_url ++ path
    headers := [("Content-Type", "application/json"),
                ("Authorization", "Bearer " ++ api_key),
                ("X-Request-Id", request_id)]
    body := body }

/-- Model of `process_vllm_two_stage_request` (lines 259-355), as a pure function
of the network.  `registry` stands for the `ServiceRegistry` side-lookup
consulted through `get_zmq_address`; `api_key` is the value of the
`OPENAI_API_KEY` environment variable (empty when unset).  The prefill
response body is drained (folded into `send`) and — unlike the
discovered path — its status is never checked before stage 2.  The
response copy at lines 341-349 skips the `transfer-encoding` and
`content-length` headers. -/
def process_vllm_two_stage_request (send : Network)
    (registry : String → ServiceType → Option String) (api_key uuid : String)
    (original_request : Json) (prefill_worker_url decode_worker_url path : String) :
    Option (List HttpRequest × Except String AxumResponse) := do
  let prefill_zmq_addr := get_zmq_address registry prefill_worker_url .prefill
  let decode_zmq_addr := get_zmq_address registry decode_worker_url .decode
  let request_id := generate_vllm_request_id prefill_zmq_addr decode_zmq_addr uuid
  let prefill_request ← prepare_prefill_request original_request
  let prefillReq := legacyStageRequest prefill_worker_url path api_key request_id
    prefill_request.serialize
  match send prefillReq with
  | none => some ([prefillReq], .error "Prefill request failed")
  | some _prefill_response =>
    let decodeReq := legacyStageRequest decode_worker_url path api_key request_id
      original_request.serialize
    match send decodeReq with
    | none => some ([prefillReq, decodeReq], .error "Decode request failed")
    | some decode_response =>
      some ([prefillReq, decodeReq],
        .ok { status := decode_response.status
              headers := decode_response.headers.filter
                (fun kv => kv.1 ≠ "transfer-encoding" && kv.1 ≠ "content-length")
              body := decode_response.body })

/-- A worker as built by `instances_to_workers` (only the URL matters to
`BasicWorker::new(url, WorkerType::Regular)` for selection). -/
structure BasicWorker where
  url : String
  deriving Repr, BEq

/-- A policy's `select_worker` method.  The implementations live outside
this crate; a policy is any function of this shape. -/
def Policy := List BasicWorker → Option String → Option Nat

/-- Model of `instances_to_workers` (lines 67-79): prepend `http://` when the
address carries no scheme and wrap as a regular worker. -/
def instances_to_workers (instances : List (String × String)) : List BasicWorker :=
  instances.map (fun inst =>
    let http_addr := inst.1
    let full_url :=
      if http_addr.startsWith "http://" || http_addr.startsWith "https://" then
        http_addr
      else
        "http://" ++ http_addr
    { url := full_url })

/-- Model of `select_worker_with_policy` (lines 82-104): empty instance lists
short-circuit to `none`; otherwise the configured policy picks an index
over the converted worker list. -/
def select_worker_with_policy (policy : Policy)
    (instances : List (String × String)) (request_text : Option String) : Option Nat :=
  if instances.isEmpty then
    none
  else
    policy (instances_to_workers instances) request_text

/-- Model of `(StatusCode, String).into_response()` for the early error returns
of `process_vllm_request`. -/
def plainResponse (status : Nat) (body : String) : AxumResponse :=
  { status := status, headers := [], body := body }

/-- Model of `process_vllm_request` (lines 107-172), as a pure function of the
network.  The instance lists come from the service-discovery registry
(external) and are passed in; `prefill_policy` and `decode_policy` are
the two configured policies.  Empty instance lists return 503 before any
selection or network activity; a failed selection returns 503; otherwise
the discovered two-stage dispatch runs and an error there surfaces as
500. -/
def process_vllm_request (send : Network) (prefill_policy decode_policy : Policy)
    (uuid : String) (request_json : Json)
    (prefill_instances decode_instances : List (String × String)) (path : String) :
    Option (List HttpRequest × AxumResponse) :=
  if prefill_instances.isEmpty || decode_instances.isEmpty then
    some ([], plainResponse 503
      ("No workers available via service discovery: " ++
        toString prefill_instances.length ++ " prefill, " ++
        toString decode_instances.length ++ " decode"))
  else
    let request_str := some request_json.serialize
    match select_worker_with_policy prefill_policy prefill_instances request_str with
    | none => some ([], plainResponse 503 "Prefill policy failed to select a worker")
    | some prefill_idx =>
      match select_worker_with_policy decode_policy decode_instances request_str with
      | none => some ([], plainResponse 503 "Decode policy failed to select a worker")
      | some decode_idx =>
        let prefill_inst := prefill_instances.getD prefill_idx ("", "")
        let decode_inst := decode_instances.getD decode_idx ("", "")
        match process_vllm_two_stage_request_discovered send uuid request_json
          prefill_inst.1 prefill_inst.2 decode_inst.1 decode_inst.2 path with
        | none => none
        | some (sent, .ok response) => some (sent, response)
        | some (sent, .error e) =>
          some (sent, plainResponse 500 ("Request processing failed: " ++ e))

/-! ## CLI prefill-argument parsing (`sgl-router/src/main.rs`) -/

/-- Model of `str::starts_with` on whole strings. -/
def strStartsWith (s p : String) : Bool :=
  p.data.isPrefixOf s.data

/-- Model of `str::to_lowercase` (ASCII-faithful, which is all the
parser compares against). -/
def toLowerStr (s : String) : String :=
  String.mk (s.data.map Char.toLower)

/-- Value of an all-digit run. -/
def digitsVal (ds : List Char) : Nat :=
  ds.foldl (fun n c => n * 10 + (c.toNat - 48)) 0

/-- Model of `str::parse::<u16>()`: an optional leading `+`, then a
nonempty digit run whose value fits in 16 bits. -/
def parseU16 (s : String) : Option Nat :=
  let ds :=
    match s.data with
    | '+' :: rest => rest
    | l => l
  if ds ≠ [] ∧ ds.all Char.isDigit then
    if digitsVal ds < 65536 then some (digitsVal ds) else none
  else
    none

/-- The port-token test shared by `parse_prefill_args` (lines 23-33) and
the filtering loop in `main` (lines 682-687): the token after the URL is
consumed when it is in range, does not start with `--`, and either
parses as a `u16` or lowercases to `none`. -/
def portTokenConsumed (args : List String) (j : Nat) : Bool :=
  decide (j < args.length) && !(strStartsWith (args.getD j "") "--") &&
    ((parseU16 (args.getD j "")).isSome || toLowerStr (args.getD j "") = "none")

/-- The bootstrap-port value recorded for the entry: the `u16` parse of
the token when the in-range/guard test passes, `None` otherwise
(including the `none` literal and unconsumed tokens). -/
def portTokenValue (args : List String) (j : Nat) : Option Nat :=
  if j < args.length ∧ strStartsWith (args.getD j "") "--" = false then
    parseU16 (args.getD j "")
  else
    none

/-- The `while` loop of `parse_prefill_args` (lines 19-42), indexing the
argument vector from position `i`.  The loop advances `i` by at least
one per iteration, so `args.length` units of fuel always suffice; the
fuel only makes the recursion structural. -/
def parsePrefillLoop (args : List String) : Nat → Nat → List (String × Option Nat)
  | 0, _ => []
  | fuel + 1, i =>
    if i < args.length then
      if args.getD i "" = "--prefill" ∧ i + 1 < args.length then
        (args.getD (i + 1) "", portTokenValue args (i + 2)) ::
          parsePrefillLoop args fuel (i + if portTokenConsumed args (i + 2) then 3 else 2)
      else
        parsePrefillLoop args fuel (i + 1)
    else
      []

/-- Model of `parse_prefill_args` (lines 14-45) applied to the full argument
vector (`std::env::args()`, program name included). -/
def parse_prefill_args (args : List String) : List (String × Option Nat) :=
  parsePrefillLoop args args.length 0

/-- The argument-filtering `while` loop of `main` (lines 677-693):
drops each `--prefill`, its URL, and — under the same test — the
consumed port token; every other argument is kept.  Fuelled like
`parsePrefillLoop`. -/
def filterLoop (args : List String) : Nat → Nat → List String
  | 0, _ => []
  | fuel + 1, i =>
    if i < args.length then
      if args.getD i "" = "--prefill" ∧ i + 1 < args.length then
        filterLoop args fuel (i + if portTokenConsumed args (i + 2) then 3 else 2)
      else
        args.getD i "" :: filterLoop args fuel (i + 1)
    else
      []

/-- The arguments handed to the CLI library after prefill filtering. -/
def filterPrefillArgs (args : List String) : List String :=
  filterLoop args args.length 0

/-- The amended consumption rule, written from the claim as amended:
the token after the URL is consumed exactly when it parses as a 16-bit
unsigned integer or equals `none` case-insensitively. -/
def specConsumesPort (tok : String) : Bool :=
  (parseU16 tok).isSome || toLowerStr tok = "none"

/-- Reference semantics of prefill-entry extraction, written from the
amended claim: each `--prefill` takes the next token as URL; a consumed
port token yields its `u16` value (or `None` for a `none` spelling); an
unconsumed token leaves the port `None` and is rescanned. -/
def specPrefillEntries : List String → List (String × Option Nat)
  | [] => []
  | [a] => if a = "--prefill" then [] else []
  | [a, url] => if a = "--prefill" then [(url, none)] else []
  | a :: url :: tok :: rest3 =>
    if a = "--prefill" then
      if specConsumesPort tok then
        (url, parseU16 tok) :: specPrefillEntries rest3
      else
        (url, none) :: specPrefillEntries (tok :: rest3)
    else
      specPrefillEntries (url :: tok :: rest3)
termination_by l => l.length
decreasing_by all_goals (simp; try omega)

/-- Reference semantics of the argument filtering, written from the
amended claim: `--prefill` and its URL are dropped, the port token is
dropped exactly when consumed, everything else is kept (a trailing
`--prefill` with no URL is kept). -/
def specFilterArgs : List String → List String
  | [] => []
  | [a] => [a]
  | [a, url] => if a = "--prefill" then [] else a :: specFilterArgs [url]
  | a :: url :: tok :: rest3 =>
    if a = "--prefill" then
      if specConsumesPort tok then
        specFilterArgs rest3
      else
        specFilterArgs (tok :: rest3)
    else
      a :: specFilterArgs (url :: tok :: rest3)
termination_by l => l.length
decreasing_by all_goals (simp; try omega)

/-! ## ConsistentHash policy (modelled from the spec)

The policy implementation itself is outside this repository's sources —
only its tests (`tests/test_consistent_hash_policy.rs`) are present —
so the following definitions are modelled from spec §3
(ConsistentHashRing) and §4.2 (ConsistentHash). -/

/-- Modelled from the spec: a worker as the policy sees it — a URL and
whether it is currently selectable (healthy with a non-open breaker). -/
structure CHWorker where
  url : String
  selectable : Bool
  deriving Repr, BEq

/-- Modelled from the spec: a stable 64-bit string hash (the spec asks
for any stable 64-bit hash, e.g. xxhash-64; an FNV-style fold stands in
for it). -/
def hash64 (s : String) : Nat :=
  s.data.foldl (fun h c => (h * 1099511628211 + c.toNat) % 18446744073709551616)
    14695981039346656037 % 18446744073709551616

/-- Modelled from the spec: each physical worker contributes
`virtual_nodes` ring points, keyed by a per-replica hash. -/
def ringPoints (workers : List CHWorker) (virtual_nodes : Nat) : List (Nat × Nat) :=
  workers.enum.flatMap (fun p =>
    (List.range virtual_nodes).map (fun j => (hash64 (p.2.url ++ "#" ++ toString j), p.1)))

/-- Insert a point into a list sorted by hash key. -/
def insertPoint (p : Nat × Nat) : List (Nat × Nat) → List (Nat × Nat)
  | [] => [p]
  | q :: qs => if p.1 ≤ q.1 then p :: q :: qs else q :: insertPoint p qs

/-- Modelled from the spec: the sorted ring. -/
def sortedRing (workers : List CHWorker) (virtual_nodes : Nat) : List (Nat × Nat) :=
  (ringPoints workers virtual_nodes).foldr insertPoint []

/-- Modelled from the spec: a request as the key extractor sees it —
an optional `session_params.session_id`, an optional top-level `user`,
and the raw request text. -/
structure CHRequest where
  session_id : Option String
  user : Option String
  text : String

/-- Modelled from the spec (§4.2): routing-key extraction in priority
order session id, then user, then the entire request text. -/
def routingKey (r : CHRequest) : String :=
  match r.session_id with
  | some sid => sid
  | none =>
    match r.user with
    | some u => u
    | none => r.text

/-- Modelled from the spec: hash the key, take the first ring point with
key ≥ hash (wrapping to the ring start on a miss), then walk clockwise
until a selectable worker is found; `none` when no worker is
selectable. -/
def chSelectKey (workers : List CHWorker) (virtual_nodes : Nat) (key : String) : Option Nat :=
  let ring := sortedRing workers virtual_nodes
  let h := hash64 key
  let ordered := ring.filter (fun p => h ≤ p.1) ++ ring.filter (fun p => p.1 < h)
  (ordered.find? (fun p => (workers.getD p.2 ⟨"", false⟩).selectable)).map Prod.snd

/-- Modelled from the spec: `ConsistentHash.select` over a fixed worker
snapshot. -/
def chSelect (workers : List CHWorker) (virtual_nodes : Nat) (r : CHRequest) : Option Nat :=
  chSelectKey workers virtual_nodes (routingKey r)

/-! # Theorems -/

/-- C7: When resolving a worker's side-channel address for the
two-stage identifier: if the service-discovery side-lookup holds a
mapping for the worker's HTTP address (the URL with its scheme
stripped), the mapped side-channel address is used; if no mapping is
known, the worker's HTTP address itself is used as the side-channel
value. -/
theorem get_zmq_address_resolution
    (registry : String → ServiceType → Option String) (http_url : String) (st : ServiceType) :
    (∀ z, registry (strReplace (strReplace http_url "http://" "") "https://" "") st = some z →
        get_zmq_address registry http_url st = z) ∧
    (registry (strReplace (strReplace http_url "http://" "") "https://" "") st = none →
        get_zmq_address registry http_url st =
          strReplace (strReplace http_url "http://" "") "https://" "") := by
  unfold get_zmq_address
  constructor
  · intro z h
    simp [h]
  · intro h
    simp [h]

/-- Registry fixture for the C7 witness: one known prefill mapping. -/
def c7Registry : String → ServiceType → Option String := fun addr st =>
  if addr = "10.0.0.1:8000" ∧ st = ServiceType.prefill then some "10.0.0.1:5555" else none

/-- C7 witness: a discovered mapping is used; an unknown address falls
back to itself. -/
theorem get_zmq_address_resolution_witness :
    get_zmq_address c7Registry "http://10.0.0.1:8000" ServiceType.prefill = "10.0.0.1:5555" ∧
    get_zmq_address c7Registry "http://10.0.0.2:8000" ServiceType.decode = "10.0.0.2:8000" := by
  constructor
  · exact (get_zmq_address_resolution c7Registry "http://10.0.0.1:8000" ServiceType.prefill).1
      "10.0.0.1:5555" (by decide)
  · exact (get_zmq_address_resolution c7Registry "http://10.0.0.2:8000" ServiceType.decode).2
      (by decide)

/-- C8 (spec-modelled: the ConsistentHash policy implementation is
outside this repository's sources): for the ConsistentHash policy, any
fixed worker set, and any two requests carrying the same routing key
(same `session_params.session_id`, or same top-level `user`, or
identical request text — all of which make `routingKey` agree), the
selections coincide; the fixed worker snapshot models that no worker
became unselectable between the calls. -/
theorem chSelect_sticky (workers : List CHWorker) (virtual_nodes : Nat) (r1 r2 : CHRequest)
    (hkey : routingKey r1 = routingKey r2) :
    chSelect workers virtual_nodes r1 = chSelect workers virtual_nodes r2 := by
  unfold chSelect
  rw [hkey]

/-- C8 witness: two different requests sharing a session id are routed
identically over a three-worker set with 160 virtual nodes. -/
theorem chSelect_sticky_witness :
    chSelect [⟨"http://worker1:8000", true⟩, ⟨"http://worker2:8000", true⟩,
        ⟨"http://worker3:8000", true⟩] 160
      ⟨some "test_session_123", none, "request 0"⟩ =
    chSelect [⟨"http://worker1:8000", true⟩, ⟨"http://worker2:8000", true⟩,
        ⟨"http://worker3:8000", true⟩] 160
      ⟨some "test_session_123", some "another_user", "request 1"⟩ :=
  chSelect_sticky _ _ _ _ rfl

/-- C10: `select_worker_with_policy` returns `none` for the empty
instance list no matter what the policy would do, and — given the
policy contract from spec §4.2 that a returned index points into the
worker list it was shown — any `some i` it returns is a valid index
into the instance list, so the indexing done by `process_vllm_request`
after selection is in bounds. -/
theorem select_worker_with_policy_bounds :
    (∀ (policy : Policy) (t : Option String),
        select_worker_with_policy policy [] t = none) ∧
    (∀ (policy : Policy) (instances : List (String × String)) (t : Option String) (i : Nat),
        (∀ ws txt j, policy ws txt = some j → j < ws.length) →
        select_worker_with_policy policy instances t = some i → i < instances.length) := by
  constructor
  · intro policy t
    rfl
  · intro policy instances t i hpol hsel
    unfold select_worker_with_policy at hsel
    by_cases he : instances.isEmpty
    · simp [he] at hsel
    · simp [he] at hsel
      have hlt := hpol _ _ _ hsel
      simpa [instances_to_workers] using hlt

/-- Policy fixture for the C10 witness: first worker when any exist. -/
def c10Policy : Policy := fun ws _ => if ws.isEmpty then none else some 0

/-- C10 witness: the empty list short-circuits, and a selected index is
in bounds for a one-instance list. -/
theorem select_worker_with_policy_bounds_witness :
    select_worker_with_policy c10Policy [] none = none ∧ (0 : Nat) < 1 := by
  constructor
  · exact select_worker_with_policy_bounds.1 c10Policy none
  · have h0 : select_worker_with_policy c10Policy
        [("10.0.0.1:8000", "10.0.0.1:5555")] none = some 0 := rfl
    have hcontract : ∀ (ws : List BasicWorker) (txt : Option String) (j : Nat),
        c10Policy ws txt = some j → j < ws.length := by
      intro ws txt j hj
      cases ws with
      | nil => simp [c10Policy] at hj
      | cons w rest =>
        simp [c10Policy] at hj
        simp [← hj]
    exact select_worker_with_policy_bounds.2 c10Policy
      [("10.0.0.1:8000", "10.0.0.1:5555")] none 0 hcontract h0

/-- Looking up the key just written by `setKey` yields the new value. -/
theorem getKey_setKey_self (k : String) (v : Json) (fields : List (String × Json)) :
    getKey (Json.obj (setKey k v fields)) k = some v := by
  induction fields with
  | nil => simp [getKey, setKey]
  | cons p rest ih =>
    obtain ⟨k', v'⟩ := p
    by_cases h : k' = k
    · simp [getKey, setKey, h]
    · simp only [getKey, setKey, if_neg h] at ih ⊢
      rw [List.find?_cons_of_neg _ (by simp [h])]
      exact ih

/-- Looking up any other key is unaffected by `setKey`. -/
theorem getKey_setKey_other (k k' : String) (v : Json) (fields : List (String × Json))
    (hne : k' ≠ k) :
    getKey (Json.obj (setKey k v fields)) k' = getKey (Json.obj fields) k' := by
  induction fields with
  | nil =>
    simp only [setKey, getKey]
    rw [List.find?_cons_of_neg _ (by simp [Ne.symm hne])]
  | cons p rest ih =>
    obtain ⟨k0, v0⟩ := p
    simp only [setKey]
    by_cases h : k0 = k
    · rw [if_pos h]
      simp only [getKey]
      rw [List.find?_cons_of_neg _ (by simp [Ne.symm hne]),
        List.find?_cons_of_neg _ (by simp [h, Ne.symm hne])]
    · rw [if_neg h]
      simp only [getKey] at ih ⊢
      by_cases h2 : k0 = k'
      · rw [List.find?_cons_of_pos _ (by simp [h2]), List.find?_cons_of_pos _ (by simp [h2])]
      · rw [List.find?_cons_of_neg _ (by simp [h2]), List.find?_cons_of_neg _ (by simp [h2])]
        exact ih

/-- C3: For every JSON object request body, the prefill-leg body
transformation succeeds and sets `max_tokens` to exactly 1, sets
`max_completion_tokens` to exactly 1 when that field is present in the
original body and leaves it absent when absent, and leaves every other
field of the body unchanged.  (Bodies reaching this transformation are
serializations of request structs, hence always objects.) -/
theorem prepare_prefill_spec (fields : List (String × Json)) :
    (prepare_prefill_request (Json.obj fields)).isSome = true ∧
    ∀ r', prepare_prefill_request (Json.obj fields) = some r' →
      getKey r' "max_tokens" = some (Json.num 1) ∧
      ((getKey (Json.obj fields) "max_completion_tokens").isSome = true →
          getKey r' "max_completion_tokens" = some (Json.num 1)) ∧
      (getKey (Json.obj fields) "max_completion_tokens" = none →
          getKey r' "max_completion_tokens" = none) ∧
      (∀ k, k ≠ "max_tokens" → k ≠ "max_completion_tokens" →
          getKey r' k = getKey (Json.obj fields) k) := by
  have hstep1 : indexSet (Json.obj fields) "max_tokens" (Json.num 1) =
      some (Json.obj (setKey "max_tokens" (Json.num 1) fields)) := rfl
  have hmct1 : getKey (Json.obj (setKey "max_tokens" (Json.num 1) fields))
      "max_completion_tokens" = getKey (Json.obj fields) "max_completion_tokens" :=
    getKey_setKey_other _ _ _ _ (by decide)
  unfold prepare_prefill_request
  rw [hstep1]
  simp only [Option.bind_eq_bind, Option.some_bind, hmct1]
  cases hpres : (getKey (Json.obj fields) "max_completion_tokens").isSome with
  | true =>
    rw [if_pos rfl]
    refine ⟨rfl, ?_⟩
    intro r' hr'
    have hr : r' = Json.obj (setKey "max_completion_tokens" (Json.num 1)
        (setKey "max_tokens" (Json.num 1) fields)) := by
      simpa [indexSet] using hr'.symm
    subst hr
    refine ⟨?_, fun _ => getKey_setKey_self _ _ _, ?_, ?_⟩
    · rw [getKey_setKey_other _ _ _ _ (by decide)]
      exact getKey_setKey_self _ _ _
    · intro habs
      rw [habs] at hpres
      simp at hpres
    · intro k hk1 hk2
      rw [getKey_setKey_other _ _ _ _ hk2, getKey_setKey_other _ _ _ _ hk1]
  | false =>
    rw [if_neg (by simp [hpres])]
    refine ⟨rfl, ?_⟩
    intro r' hr'
    have hr : r' = Json.obj (setKey "max_tokens" (Json.num 1) fields) := by
      simpa using hr'.symm
    subst hr
    refine ⟨getKey_setKey_self _ _ _, ?_, ?_, ?_⟩
    · intro hpos
      exact absurd hpos (by simp)
    · intro habs
      rw [hmct1]
      exact habs
    · intro k hk1 _
      exact getKey_setKey_other _ _ _ _ hk1

/-- C3 witness: a completion body with both generation-length fields is
clamped to 1 on each while `prompt` survives untouched. -/
theorem prepare_prefill_spec_witness :
    getKey (Json.obj [("prompt", Json.str "hi"), ("max_tokens", Json.num 1),
        ("max_completion_tokens", Json.num 1)]) "max_tokens" = some (Json.num 1) ∧
    getKey (Json.obj [("prompt", Json.str "hi"), ("max_tokens", Json.num 1),
        ("max_completion_tokens", Json.num 1)]) "prompt" = some (Json.str "hi") := by
  have h := (prepare_prefill_spec [("prompt", Json.str "hi"), ("max_tokens", Json.num 32),
      ("max_completion_tokens", Json.num 64)]).2
    (Json.obj [("prompt", Json.str "hi"), ("max_tokens", Json.num 1),
      ("max_completion_tokens", Json.num 1)]) rfl
  refine ⟨h.1, ?_⟩
  have h4 := h.2.2.2 "prompt" (by decide) (by decide)
  rw [h4]
  rfl

/-! ## Evaluation lemmas for the two dispatch paths -/

/-- Abbreviation: the request id of a discovered-path run. -/
def discRid (pz dz uuid : String) : String :=
  generate_vllm_request_id pz dz uuid

/-- Discovered path, body preparation panic. -/
theorem discovered_eval_panic (send : Network) (uuid : String) (rq : Json)
    (ph pz dh dz path : String) (hpre : preparePrefillInline rq = none) :
    process_vllm_two_stage_request_discovered send uuid rq ph pz dh dz path = none := by
  unfold process_vllm_two_stage_request_discovered
  rw [hpre]
  rfl

/-- Discovered path, stage-1 transport failure. -/
theorem discovered_eval_transport_fail (send : Network) (uuid : String) (rq pr : Json)
    (ph pz dh dz path : String) (hpre : preparePrefillInline rq = some pr)
    (hs1 : send (discoveredPrefillRequest ph path (discRid pz dz uuid) pr.serialize) = none) :
    process_vllm_two_stage_request_discovered send uuid rq ph pz dh dz path =
      some ([discoveredPrefillRequest ph path (discRid pz dz uuid) pr.serialize],
        .error "Prefill request failed") := by
  unfold process_vllm_two_stage_request_discovered discRid at *
  rw [hpre]
  show (match send (discoveredPrefillRequest ph path _ pr.serialize) with
    | none => _ | some prefill_response => _) = _
  rw [hs1]

/-- Discovered path, stage-1 non-2xx status: the run errors out with
only the prefill request sent. -/
theorem discovered_eval_non2xx (send : Network) (uuid : String) (rq pr : Json)
    (ph pz dh dz path : String) (presp : HttpResponse)
    (hpre : preparePrefillInline rq = some pr)
    (hs1 : send (discoveredPrefillRequest ph path (discRid pz dz uuid) pr.serialize) =
      some presp)
    (hbad : is2xx presp.status = false) :
    process_vllm_two_stage_request_discovered send uuid rq ph pz dh dz path =
      some ([discoveredPrefillRequest ph path (discRid pz dz uuid) pr.serialize],
        .error ("Prefill server error " ++ toString presp.status)) := by
  unfold process_vllm_two_stage_request_discovered discRid at *
  rw [hpre]
  show (match send (discoveredPrefillRequest ph path _ pr.serialize) with
    | none => _ | some prefill_response => _) = _
  rw [hs1]
  simp [hbad]

/-- Discovered path, stage-1 2xx then stage-2 transport failure. -/
theorem discovered_eval_decode_fail (send : Network) (uuid : String) (rq pr : Json)
    (ph pz dh dz path : String) (presp : HttpResponse)
    (hpre : preparePrefillInline rq = some pr)
    (hs1 : send (discoveredPrefillRequest ph path (discRid pz dz uuid) pr.serialize) =
      some presp)
    (hok : is2xx presp.status = true)
    (hs2 : send (discoveredDecodeRequest dh path (discRid pz dz uuid) rq.serialize) = none) :
    process_vllm_two_stage_request_discovered send uuid rq ph pz dh dz path =
      some ([discoveredPrefillRequest ph path (discRid pz dz uuid) pr.serialize,
             discoveredDecodeRequest dh path (discRid pz dz uuid) rq.serialize],
        .error "Decode request failed") := by
  unfold process_vllm_two_stage_request_discovered discRid at *
  rw [hpre]
  show (match send (discoveredPrefillRequest ph path _ pr.serialize) with
    | none => _ | some prefill_response => _) = _
  rw [hs1]
  simp only [hok, if_true]
  rw [hs2]

/-- Discovered path, both stages answered: the decode response's
status, headers and body are returned verbatim. -/
theorem discovered_eval_success (send : Network) (uuid : String) (rq pr : Json)
    (ph pz dh dz path : String) (presp dresp : HttpResponse)
    (hpre : preparePrefillInline rq = some pr)
    (hs1 : send (discoveredPrefillRequest ph path (discRid pz dz uuid) pr.serialize) =
      some presp)
    (hok : is2xx presp.status = true)
    (hs2 : send (discoveredDecodeRequest dh path (discRid pz dz uuid) rq.serialize) =
      some dresp) :
    process_vllm_two_stage_request_discovered send uuid rq ph pz dh dz path =
      some ([discoveredPrefillRequest ph path (discRid pz dz uuid) pr.serialize,
             discoveredDecodeRequest dh path (discRid pz dz uuid) rq.serialize],
        .ok { status := dresp.status, headers := dresp.headers, body := dresp.body }) := by
  unfold process_vllm_two_stage_request_discovered discRid at *
  rw [hpre]
  show (match send (discoveredPrefillRequest ph path _ pr.serialize) with
    | none => _ | some prefill_response => _) = _
  rw [hs1]
  simp only [hok, if_true]
  rw [hs2]

/-- Abbreviation: the request id of a legacy-path run. -/
def legacyRid (registry : String → ServiceType → Option String) (pu du uuid : String) : String :=
  generate_vllm_request_id (get_zmq_address registry pu .prefill)
    (get_zmq_address registry du .decode) uuid

/-- Legacy path, stage-1 transport failure: the only case in which the
decode request is not sent. -/
theorem legacy_eval_transport_fail (send : Network)
    (registry : String → ServiceType → Option String) (api_key uuid : String)
    (rq pr : Json) (pu du path : String)
    (hpre : prepare_prefill_request rq = some pr)
    (hs1 : send (legacyStageRequest pu path api_key (legacyRid registry pu du uuid)
      pr.serialize) = none) :
    process_vllm_two_stage_request send registry api_key uuid rq pu du path =
      some ([legacyStageRequest pu path api_key (legacyRid registry pu du uuid) pr.serialize],
        .error "Prefill request failed") := by
  unfold process_vllm_two_stage_request legacyRid at *
  rw [hpre]
  show (match send (legacyStageRequest pu path api_key _ pr.serialize) with
    | none => _ | some _prefill_response => _) = _
  rw [hs1]

/-- Legacy path, stage-1 answered (any status — the status is never
inspected) and stage-2 transport failure. -/
theorem legacy_eval_decode_fail (send : Network)
    (registry : String → ServiceType → Option String) (api_key uuid : String)
    (rq pr : Json) (pu du path : String) (presp : HttpResponse)
    (hpre : prepare_prefill_request rq = some pr)
    (hs1 : send (legacyStageRequest pu path api_key (legacyRid registry pu du uuid)
      pr.serialize) = some presp)
    (hs2 : send (legacyStageRequest du path api_key (legacyRid registry pu du uuid)
      rq.serialize) = none) :
    process_vllm_two_stage_request send registry api_key uuid rq pu du path =
      some ([legacyStageRequest pu path api_key (legacyRid registry pu du uuid) pr.serialize,
             legacyStageRequest du path api_key (legacyRid registry pu du uuid) rq.serialize],
        .error "Decode request failed") := by
  unfold process_vllm_two_stage_request legacyRid at *
  rw [hpre]
  show (match send (legacyStageRequest pu path api_key _ pr.serialize) with
    | none => _ | some _prefill_response => _) = _
  rw [hs1]
  show (match send (legacyStageRequest du path api_key _ rq.serialize) with
    | none => _ | some decode_response => _) = _
  rw [hs2]

/-- Legacy path, both stages answered — the stage-1 status is never
inspected, and the decode response is copied with `transfer-encoding`
and `content-length` stripped. -/
theorem legacy_eval_success (send : Network)
    (registry : String → ServiceType → Option String) (api_key uuid : String)
    (rq pr : Json) (pu du path : String) (presp dresp : HttpResponse)
    (hpre : prepare_prefill_request rq = some pr)
    (hs1 : send (legacyStageRequest pu path api_key (legacyRid registry pu du uuid)
      pr.serialize) = some presp)
    (hs2 : send (legacyStageRequest du path api_key (legacyRid registry pu du uuid)
      rq.serialize) = some dresp) :
    process_vllm_two_stage_request send registry api_key uuid rq pu du path =
      some ([legacyStageRequest pu path api_key (legacyRid registry pu du uuid) pr.serialize,
             legacyStageRequest du path api_key (legacyRid registry pu du uuid) rq.serialize],
        .ok { status := dresp.status
              headers := dresp.headers.filter
                (fun kv => kv.1 ≠ "transfer-encoding" && kv.1 ≠ "content-length")
              body := dresp.body }) := by
  unfold process_vllm_two_stage_request legacyRid at *
  rw [hpre]
  show (match send (legacyStageRequest pu path api_key _ pr.serialize) with
    | none => _ | some _prefill_response => _) = _
  rw [hs1]
  show (match send (legacyStageRequest du path api_key _ rq.serialize) with
    | none => _ | some decode_response => _) = _
  rw [hs2]

/-- Every trace of the discovered path is the prefill request alone or
the prefill request followed by the decode request. -/
theorem discovered_sent_shape (send : Network) (uuid : String) (rq : Json)
    (ph pz dh dz path : String) (sent : List HttpRequest) (res : Except String AxumResponse)
    (h : process_vllm_two_stage_request_discovered send uuid rq ph pz dh dz path =
      some (sent, res)) :
    ∃ pr, preparePrefillInline rq = some pr ∧
      (sent = [discoveredPrefillRequest ph path (discRid pz dz uuid) pr.serialize] ∨
       sent = [discoveredPrefillRequest ph path (discRid pz dz uuid) pr.serialize,
               discoveredDecodeRequest dh path (discRid pz dz uuid) rq.serialize]) := by
  cases hpre : preparePrefillInline rq with
  | none =>
    rw [discovered_eval_panic _ _ _ _ _ _ _ _ hpre] at h
    cases h
  | some pr =>
    refine ⟨pr, rfl, ?_⟩
    cases hs1 : send (discoveredPrefillRequest ph path (discRid pz dz uuid) pr.serialize) with
    | none =>
      rw [discovered_eval_transport_fail _ _ _ _ _ _ _ _ _ hpre hs1] at h
      simp only [Option.some.injEq, Prod.mk.injEq] at h
      exact Or.inl h.1.symm
    | some presp =>
      cases hok : is2xx presp.status with
      | false =>
        rw [discovered_eval_non2xx _ _ _ _ _ _ _ _ _ _ hpre hs1 hok] at h
        simp only [Option.some.injEq, Prod.mk.injEq] at h
        exact Or.inl h.1.symm
      | true =>
        cases hs2 : send (discoveredDecodeRequest dh path (discRid pz dz uuid) rq.serialize) with
        | none =>
          rw [discovered_eval_decode_fail _ _ _ _ _ _ _ _ _ _ hpre hs1 hok hs2] at h
          simp only [Option.some.injEq, Prod.mk.injEq] at h
          exact Or.inr h.1.symm
        | some dresp =>
          rw [discovered_eval_success _ _ _ _ _ _ _ _ _ _ _ hpre hs1 hok hs2] at h
          simp only [Option.some.injEq, Prod.mk.injEq] at h
          exact Or.inr h.1.symm

/-- Every trace of the legacy path is the prefill request alone or the
prefill request followed by the decode request. -/
theorem legacy_sent_shape (send : Network)
    (registry : String → ServiceType → Option String) (api_key uuid : String) (rq : Json)
    (pu du path : String) (sent : List HttpRequest) (res : Except String AxumResponse)
    (h : process_vllm_two_stage_request send registry api_key uuid rq pu du path =
      some (sent, res)) :
    ∃ pr, prepare_prefill_request rq = some pr ∧
      (sent = [legacyStageRequest pu path api_key (legacyRid registry pu du uuid)
                 pr.serialize] ∨
       sent = [legacyStageRequest pu path api_key (legacyRid registry pu du uuid) pr.serialize,
               legacyStageRequest du path api_key (legacyRid registry pu du uuid)
                 rq.serialize]) := by
  cases hpre : prepare_prefill_request rq with
  | none =>
    unfold process_vllm_two_stage_request at h
    rw [hpre] at h
    cases h
  | some pr =>
    refine ⟨pr, rfl, ?_⟩
    cases hs1 : send (legacyStageRequest pu path api_key (legacyRid registry pu du uuid)
        pr.serialize) with
    | none =>
      rw [legacy_eval_transport_fail _ _ _ _ _ _ _ _ _ hpre hs1] at h
      simp only [Option.some.injEq, Prod.mk.injEq] at h
      exact Or.inl h.1.symm
    | some presp =>
      cases hs2 : send (legacyStageRequest du path api_key (legacyRid registry pu du uuid)
          rq.serialize) with
      | none =>
        rw [legacy_eval_decode_fail _ _ _ _ _ _ _ _ _ _ hpre hs1 hs2] at h
        simp only [Option.some.injEq, Prod.mk.injEq] at h
        exact Or.inr h.1.symm
      | some dresp =>
        rw [legacy_eval_success _ _ _ _ _ _ _ _ _ _ _ hpre hs1 hs2] at h
        simp only [Option.some.injEq, Prod.mk.injEq] at h
        exact Or.inr h.1.symm

/-- C1 counterexample: on the legacy
`process_vllm_two_stage_request` path the stage-1 status is never
checked.  With a network that answers the prefill URL with status 500
and everything else with 200, the run still sends the decode request
(the trace has both legs) and returns the decode response as success —
refuting the claim that on every two-stage code path a non-2xx stage-1
response fails the request without calling stage 2. -/
def c1Send : Network := fun req =>
  if req.url = "http://pw:8000/v1/completions" then some ⟨500, [], "err"⟩
  else some ⟨200, [], "ok"⟩

/-- C1 counterexample theorem (see `c1Send`): prefill answers 500, yet
the decode leg is sent and its 200 response is returned. -/
theorem legacy_sends_stage2_after_500 :
    process_vllm_two_stage_request c1Send (fun _ _ => none) "" "u" (Json.obj [])
        "http://pw:8000" "http://dw:8000" "/v1/completions" =
      some ([⟨"POST", "http://pw:8000/v1/completions",
               [("Content-Type", "application/json"), ("Authorization", "Bearer "),
                ("X-Request-Id", "___prefill_addr_pw:8000___decode_addr_dw:8000_u")],
               "\x7b\"max_tokens\":1\x7d"⟩,
             ⟨"POST", "http://dw:8000/v1/completions",
               [("Content-Type", "application/json"), ("Authorization", "Bearer "),
                ("X-Request-Id", "___prefill_addr_pw:8000___decode_addr_dw:8000_u")],
               "\x7b\x7d"⟩],
        .ok ⟨200, [], "ok"⟩) ∧
    c1Send ⟨"POST", "http://pw:8000/v1/completions",
      [("Content-Type", "application/json"), ("Authorization", "Bearer "),
       ("X-Request-Id", "___prefill_addr_pw:8000___decode_addr_dw:8000_u")],
      "\x7b\"max_tokens\":1\x7d"⟩ = some ⟨500, [], "err"⟩ ∧
    is2xx 500 = false :=
  ⟨rfl, rfl, rfl⟩

/-- C1 amended: on the discovered service-discovery path a
non-2xx stage-1 response fails the whole request with an error and the
decode request is never sent (the trace is the prefill request alone);
on the legacy path only a stage-1 transport error prevents stage 2 —
whenever stage 1 returns a response, stage 2 is sent regardless of the
stage-1 status. -/
theorem stage1_failure_spec :
    (∀ (send : Network) (uuid : String) (rq pr : Json) (ph pz dh dz path : String)
        (presp : HttpResponse),
      preparePrefillInline rq = some pr →
      send (discoveredPrefillRequest ph path (discRid pz dz uuid) pr.serialize) = some presp →
      is2xx presp.status = false →
      process_vllm_two_stage_request_discovered send uuid rq ph pz dh dz path =
        some ([discoveredPrefillRequest ph path (discRid pz dz uuid) pr.serialize],
          .error ("Prefill server error " ++ toString presp.status))) ∧
    (∀ (send : Network) (registry : String → ServiceType → Option String)
        (api_key uuid : String) (rq pr : Json) (pu du path : String),
      prepare_prefill_request rq = some pr →
      send (legacyStageRequest pu path api_key (legacyRid registry pu du uuid)
        pr.serialize) = none →
      process_vllm_two_stage_request send registry api_key uuid rq pu du path =
        some ([legacyStageRequest pu path api_key (legacyRid registry pu du uuid)
          pr.serialize], .error "Prefill request failed")) ∧
    (∀ (send : Network) (registry : String → ServiceType → Option String)
        (api_key uuid : String) (rq pr : Json) (pu du path : String)
        (presp : HttpResponse) (sent : List HttpRequest) (res : Except String AxumResponse),
      prepare_prefill_request rq = some pr →
      send (legacyStageRequest pu path api_key (legacyRid registry pu du uuid)
        pr.serialize) = some presp →
      process_vllm_two_stage_request send registry api_key uuid rq pu du path =
        some (sent, res) →
      legacyStageRequest du path api_key (legacyRid registry pu du uuid) rq.serialize
        ∈ sent) := by
  refine ⟨?_, ?_, ?_⟩
  · intro send uuid rq pr ph pz dh dz path presp hpre hs1 hbad
    exact discovered_eval_non2xx _ _ _ _ _ _ _ _ _ _ hpre hs1 hbad
  · intro send registry api_key uuid rq pr pu du path hpre hs1
    exact legacy_eval_transport_fail _ _ _ _ _ _ _ _ _ hpre hs1
  · intro send registry api_key uuid rq pr pu du path presp sent res hpre hs1 hrun
    cases hs2 : send (legacyStageRequest du path api_key (legacyRid registry pu du uuid)
        rq.serialize) with
    | none =>
      rw [legacy_eval_decode_fail _ _ _ _ _ _ _ _ _ _ hpre hs1 hs2] at hrun
      simp only [Option.some.injEq, Prod.mk.injEq] at hrun
      rw [← hrun.1]
      simp
    | some dresp =>
      rw [legacy_eval_success _ _ _ _ _ _ _ _ _ _ _ hpre hs1 hs2] at hrun
      simp only [Option.some.injEq, Prod.mk.injEq] at hrun
      rw [← hrun.1]
      simp

/-- C1 witness: a concrete discovered-path run whose prefill leg
answers 503 aborts with only the prefill request sent. -/
theorem stage1_failure_spec_witness :
    process_vllm_two_stage_request_discovered
        (fun _ => some ⟨503, [], "overloaded"⟩) "u" (Json.obj []) "ph:8000" "pz:5555"
        "dh:8000" "dz:5555" "/v1/completions" =
      some ([discoveredPrefillRequest "ph:8000" "/v1/completions"
        (discRid "pz:5555" "dz:5555" "u")
        (Json.obj [("max_tokens", Json.num 1)]).serialize],
        .error ("Prefill server error " ++ toString 503)) :=
  stage1_failure_spec.1 (fun _ => some ⟨503, [], "overloaded"⟩) "u" (Json.obj [])
    (Json.obj [("max_tokens", Json.num 1)]) "ph:8000" "pz:5555" "dh:8000" "dz:5555"
    "/v1/completions" ⟨503, [], "overloaded"⟩ rfl rfl rfl

/-- Unfolding `removeDashes` to its underlying character filter. -/
theorem removeDashes_data (s : String) :
    (removeDashes s).data = s.data.filter (fun c => c ≠ '-') := rfl

/-- Hex digits survive the dash filter. -/
theorem filter_ne_dash_of_all_hex (l : List Char) (h : l.all isHexDigit = true) :
    l.filter (fun c => c ≠ '-') = l := by
  induction l with
  | nil => rfl
  | cons c rest ih =>
    simp only [List.all_cons, Bool.and_eq_true] at h
    have hc : c ≠ '-' := by
      intro hc
      rw [hc] at h
      exact absurd h.1 (by decide)
    rw [List.filter_cons_of_pos (by simp [hc]), ih h.2]

/-- C2: Every identifier generated for a PD two-stage dispatch is
exactly `___prefill_addr_` ++ prefill side-channel address ++
`___decode_addr_` ++ decode side-channel address ++ `_` ++ uuid, where
the uuid is the hyphenated v4 UUID rendering with its dashes removed —
32 hex characters — and on both two-stage code paths every outbound leg
carries exactly that identifier in its `X-Request-Id` header. -/
theorem request_id_spec :
    (∀ p d u, isUuidHyphenated u →
      generate_vllm_request_id p d u =
        "___prefill_addr_" ++ p ++ "___decode_addr_" ++ d ++ "_" ++ removeDashes u ∧
      (removeDashes u).data.length = 32 ∧
      (removeDashes u).data.all isHexDigit = true) ∧
    (∀ (send : Network) (uuid : String) (rq : Json) (ph pz dh dz path : String)
        (sent : List HttpRequest) (res : Except String AxumResponse),
      process_vllm_two_stage_request_discovered send uuid rq ph pz dh dz path =
        some (sent, res) →
      ∀ req ∈ sent, ("X-Request-Id", generate_vllm_request_id pz dz uuid) ∈ req.headers) ∧
    (∀ (send : Network) (registry : String → ServiceType → Option String)
        (api_key uuid : String) (rq : Json) (pu du path : String)
        (sent : List HttpRequest) (res : Except String AxumResponse),
      process_vllm_two_stage_request send registry api_key uuid rq pu du path =
        some (sent, res) →
      ∀ req ∈ sent,
        ("X-Request-Id",
          generate_vllm_request_id (get_zmq_address registry pu .prefill)
            (get_zmq_address registry du .decode) uuid) ∈ req.headers) := by
  refine ⟨?_, ?_, ?_⟩
  · intro p d u hu
    obtain ⟨a, b, c, d', e, ha, hb, hc, hd, he, hall, hdata⟩ := hu
    have hfilter : (removeDashes u).data = a ++ (b ++ (c ++ (d' ++ e))) := by
      rw [removeDashes_data, hdata]
      simp only [List.all_append, Bool.and_eq_true] at hall
      rw [List.filter_append, List.filter_cons_of_neg (by decide), List.filter_append,
        List.filter_cons_of_neg (by decide), List.filter_append,
        List.filter_cons_of_neg (by decide), List.filter_append,
        List.filter_cons_of_neg (by decide)]
      rw [filter_ne_dash_of_all_hex a hall.1.1.1.1, filter_ne_dash_of_all_hex b hall.1.1.1.2,
        filter_ne_dash_of_all_hex c hall.1.1.2, filter_ne_dash_of_all_hex d' hall.1.2,
        filter_ne_dash_of_all_hex e hall.2]
    refine ⟨rfl, ?_, ?_⟩
    · rw [hfilter]
      simp [ha, hb, hc, hd, he]
    · rw [hfilter]
      simp only [List.all_append, Bool.and_eq_true] at hall ⊢
      tauto
  · intro send uuid rq ph pz dh dz path sent res h req hreq
    obtain ⟨pr, _, hshape | hshape⟩ :=
      discovered_sent_shape send uuid rq ph pz dh dz path sent res h <;>
      subst hshape <;>
      simp only [List.mem_singleton, List.mem_cons, List.not_mem_nil, or_false] at hreq
    · subst hreq
      simp [discoveredPrefillRequest, discRid]
    · rcases hreq with hreq | hreq <;> subst hreq <;>
        simp [discoveredPrefillRequest, discoveredDecodeRequest, discRid]
  · intro send registry api_key uuid rq pu du path sent res h req hreq
    obtain ⟨pr, _, hshape | hshape⟩ :=
      legacy_sent_shape send registry api_key uuid rq pu du path sent res h <;>
      subst hshape <;>
      simp only [List.mem_singleton, List.mem_cons, List.not_mem_nil, or_false] at hreq
    · subst hreq
      simp [legacyStageRequest, legacyRid]
    · rcases hreq with hreq | hreq <;> subst hreq <;>
        simp [legacyStageRequest, legacyRid]

/-- C2 witness: a fixed hyphenated UUID yields the documented identifier
with a 32-hex-character tail, and a concrete discovered-path run stamps
it on the (only) outbound leg. -/
theorem request_id_spec_witness :
    generate_vllm_request_id "pz:5555" "dz:5555" "123e4567-e89b-42d3-a456-426614174000" =
      "___prefill_addr_" ++ "pz:5555" ++ "___decode_addr_" ++ "dz:5555" ++ "_" ++
        removeDashes "123e4567-e89b-42d3-a456-426614174000" ∧
    (removeDashes "123e4567-e89b-42d3-a456-426614174000").data.length = 32 ∧
    ("X-Request-Id",
        generate_vllm_request_id "pz:5555" "dz:5555" "123e4567-e89b-42d3-a456-426614174000") ∈
      (discoveredPrefillRequest "ph:8000" "/v1/completions"
        (discRid "pz:5555" "dz:5555" "123e4567-e89b-42d3-a456-426614174000")
        (Json.obj [("max_tokens", Json.num 1)]).serialize).headers := by
  have huuid : isUuidHyphenated "123e4567-e89b-42d3-a456-426614174000" := by
    refine ⟨"123e4567".data, "e89b".data, "42d3".data, "a456".data,
      "426614174000".data, ?_, ?_, ?_, ?_, ?_, ?_, ?_⟩ <;> decide
  have h1 := (request_id_spec.1 "pz:5555" "dz:5555" "123e4567-e89b-42d3-a456-426614174000" huuid)
  refine ⟨h1.1, h1.2.1, ?_⟩
  have hrun : process_vllm_two_stage_request_discovered (fun _ => none)
      "123e4567-e89b-42d3-a456-426614174000" (Json.obj []) "ph:8000" "pz:5555" "dh:8000"
      "dz:5555" "/v1/completions" =
      some ([discoveredPrefillRequest "ph:8000" "/v1/completions"
        (discRid "pz:5555" "dz:5555" "123e4567-e89b-42d3-a456-426614174000")
        (Json.obj [("max_tokens", Json.num 1)]).serialize], .error "Prefill request failed") :=
    rfl
  exact request_id_spec.2.1 (fun _ => none) "123e4567-e89b-42d3-a456-426614174000"
    (Json.obj []) "ph:8000" "pz:5555" "dh:8000" "dz:5555" "/v1/completions" _ _ hrun _
    (by simp)

/-- C4: on both two-stage paths, whenever stage 1 succeeds the
trace is exactly the prefill request followed by the decode request,
and the decode request POSTs the original (unmodified) serialized body
to the decode worker's URL concatenated with the request path, carrying
the same `X-Request-Id` value stage 1 carried. -/
theorem stage2_uses_original_body :
    (∀ (send : Network) (uuid : String) (rq pr : Json) (ph pz dh dz path : String)
        (presp : HttpResponse) (sent : List HttpRequest) (res : Except String AxumResponse),
      preparePrefillInline rq = some pr →
      send (discoveredPrefillRequest ph path (discRid pz dz uuid) pr.serialize) = some presp →
      is2xx presp.status = true →
      process_vllm_two_stage_request_discovered send uuid rq ph pz dh dz path =
        some (sent, res) →
      sent = [discoveredPrefillRequest ph path (discRid pz dz uuid) pr.serialize,
              discoveredDecodeRequest dh path (discRid pz dz uuid) rq.serialize] ∧
      (discoveredDecodeRequest dh path (discRid pz dz uuid) rq.serialize).method = "POST" ∧
      (discoveredDecodeRequest dh path (discRid pz dz uuid) rq.serialize).url =
        "http://" ++ dh ++ path ∧
      (discoveredDecodeRequest dh path (discRid pz dz uuid) rq.serialize).body =
        rq.serialize ∧
      ("X-Request-Id", discRid pz dz uuid) ∈
        (discoveredDecodeRequest dh path (discRid pz dz uuid) rq.serialize).headers ∧
      ("X-Request-Id", discRid pz dz uuid) ∈
        (discoveredPrefillRequest ph path (discRid pz dz uuid) pr.serialize).headers) ∧
    (∀ (send : Network) (registry : String → ServiceType → Option String)
        (api_key uuid : String) (rq pr : Json) (pu du path : String)
        (presp : HttpResponse) (sent : List HttpRequest) (res : Except String AxumResponse),
      prepare_prefill_request rq = some pr →
      send (legacyStageRequest pu path api_key (legacyRid registry pu du uuid)
        pr.serialize) = some presp →
      is2xx presp.status = true →
      process_vllm_two_stage_request send registry api_key uuid rq pu du path =
        some (sent, res) →
      sent = [legacyStageRequest pu path api_key (legacyRid registry pu du uuid) pr.serialize,
              legacyStageRequest du path api_key (legacyRid registry pu du uuid)
                rq.serialize] ∧
      (legacyStageRequest du path api_key (legacyRid registry pu du uuid)
        rq.serialize).method = "POST" ∧
      (legacyStageRequest du path api_key (legacyRid registry pu du uuid)
        rq.serialize).url = du ++ path ∧
      (legacyStageRequest du path api_key (legacyRid registry pu du uuid)
        rq.serialize).body = rq.serialize ∧
      ("X-Request-Id", legacyRid registry pu du uuid) ∈
        (legacyStageRequest du path api_key (legacyRid registry pu du uuid)
          rq.serialize).headers ∧
      ("X-Request-Id", legacyRid registry pu du uuid) ∈
        (legacyStageRequest pu path api_key (legacyRid registry pu du uuid)
          pr.serialize).headers) := by
  constructor
  · intro send uuid rq pr ph pz dh dz path presp sent res hpre hs1 hok hrun
    refine ⟨?_, rfl, rfl, rfl, by simp [discoveredDecodeRequest],
      by simp [discoveredPrefillRequest]⟩
    cases hs2 : send (discoveredDecodeRequest dh path (discRid pz dz uuid) rq.serialize) with
    | none =>
      rw [discovered_eval_decode_fail _ _ _ _ _ _ _ _ _ _ hpre hs1 hok hs2] at hrun
      simp only [Option.some.injEq, Prod.mk.injEq] at hrun
      exact hrun.1.symm
    | some dresp =>
      rw [discovered_eval_success _ _ _ _ _ _ _ _ _ _ _ hpre hs1 hok hs2] at hrun
      simp only [Option.some.injEq, Prod.mk.injEq] at hrun
      exact hrun.1.symm
  · intro send registry api_key uuid rq pr pu du path presp sent res hpre hs1 _hok hrun
    refine ⟨?_, rfl, rfl, rfl, by simp [legacyStageRequest], by simp [legacyStageRequest]⟩
    cases hs2 : send (legacyStageRequest du path api_key (legacyRid registry pu du uuid)
        rq.serialize) with
    | none =>
      rw [legacy_eval_decode_fail _ _ _ _ _ _ _ _ _ _ hpre hs1 hs2] at hrun
      simp only [Option.some.injEq, Prod.mk.injEq] at hrun
      exact hrun.1.symm
    | some dresp =>
      rw [legacy_eval_success _ _ _ _ _ _ _ _ _ _ _ hpre hs1 hs2] at hrun
      simp only [Option.some.injEq, Prod.mk.injEq] at hrun
      exact hrun.1.symm

/-- C4 witness: a concrete all-200 discovered-path run sends exactly
the two legs, the second with the original empty-object body. -/
theorem stage2_uses_original_body_witness :
    (discoveredDecodeRequest "dh:8000" "/v1/completions" (discRid "pz" "dz" "u")
      (Json.obj []).serialize).body = (Json.obj []).serialize ∧
    (discoveredDecodeRequest "dh:8000" "/v1/completions" (discRid "pz" "dz" "u")
      (Json.obj []).serialize).url = "http://" ++ "dh:8000" ++ "/v1/completions" := by
  have h := stage2_uses_original_body.1 (fun _ => some ⟨200, [], "ok"⟩) "u" (Json.obj [])
    (Json.obj [("max_tokens", Json.num 1)]) "ph:8000" "pz" "dh:8000" "dz" "/v1/completions"
    ⟨200, [], "ok"⟩
    [discoveredPrefillRequest "ph:8000" "/v1/completions" (discRid "pz" "dz" "u")
       (Json.obj [("max_tokens", Json.num 1)]).serialize,
     discoveredDecodeRequest "dh:8000" "/v1/completions" (discRid "pz" "dz" "u")
       (Json.obj []).serialize]
    (.ok ⟨200, [], "ok"⟩) rfl rfl rfl rfl
  exact ⟨h.2.2.2.1, h.2.2.1⟩

/-- C5 counterexample: the discovered path copies every decode
response header — including `content-length` and `transfer-encoding` —
back to the caller, refuting the claim that those headers are stripped
on any PD two-stage path.  The network answers the decode URL with both
hop-by-hop headers present. -/
def c5Send : Network := fun req =>
  if req.url = "http://dh:8000/v1/completions" then
    some ⟨200, [("content-type", "application/json"), ("content-length", "2"),
      ("transfer-encoding", "chunked")], "ok"⟩
  else
    some ⟨200, [], ""⟩

/-- C5 counterexample theorem (see `c5Send`): the copied-back response
still carries `content-length` and `transfer-encoding`. -/
theorem discovered_keeps_hop_headers :
    process_vllm_two_stage_request_discovered c5Send "u" (Json.obj []) "ph:8000" "pz"
        "dh:8000" "dz" "/v1/completions" =
      some ([discoveredPrefillRequest "ph:8000" "/v1/completions" (discRid "pz" "dz" "u")
               (Json.obj [("max_tokens", Json.num 1)]).serialize,
             discoveredDecodeRequest "dh:8000" "/v1/completions" (discRid "pz" "dz" "u")
               (Json.obj []).serialize],
        .ok ⟨200, [("content-type", "application/json"), ("content-length", "2"),
          ("transfer-encoding", "chunked")], "ok"⟩) ∧
    ("content-length", "2") ∈ [("content-type", "application/json"),
      ("content-length", "2"), ("transfer-encoding", "chunked")] ∧
    ("transfer-encoding", "chunked") ∈ [("content-type", "application/json"),
      ("content-length", "2"), ("transfer-encoding", "chunked")] :=
  ⟨rfl, by simp, by simp⟩

/-- C5 amended: on the legacy `process_vllm_two_stage_request`
path the decode response is copied back with exactly the
`transfer-encoding` and `content-length` headers removed (a header
survives the copy iff it is in the decode response and is neither of
the two), status and body unchanged; on the discovered path every
header, the status and the body are copied back verbatim with nothing
stripped. -/
theorem response_copy_spec :
    (∀ (send : Network) (registry : String → ServiceType → Option String)
        (api_key uuid : String) (rq pr : Json) (pu du path : String)
        (presp dresp : HttpResponse),
      prepare_prefill_request rq = some pr →
      send (legacyStageRequest pu path api_key (legacyRid registry pu du uuid)
        pr.serialize) = some presp →
      send (legacyStageRequest du path api_key (legacyRid registry pu du uuid)
        rq.serialize) = some dresp →
      process_vllm_two_stage_request send registry api_key uuid rq pu du path =
        some ([legacyStageRequest pu path api_key (legacyRid registry pu du uuid)
            pr.serialize,
          legacyStageRequest du path api_key (legacyRid registry pu du uuid) rq.serialize],
          .ok { status := dresp.status
                headers := dresp.headers.filter
                  (fun kv => kv.1 ≠ "transfer-encoding" && kv.1 ≠ "content-length")
                body := dresp.body })) ∧
    (∀ (hs : List (String × String)) (kv : String × String),
      kv ∈ hs.filter (fun kv => kv.1 ≠ "transfer-encoding" && kv.1 ≠ "content-length") ↔
        kv ∈ hs ∧ kv.1 ≠ "transfer-encoding" ∧ kv.1 ≠ "content-length") ∧
    (∀ (send : Network) (uuid : String) (rq pr : Json) (ph pz dh dz path : String)
        (presp dresp : HttpResponse),
      preparePrefillInline rq = some pr →
      send (discoveredPrefillRequest ph path (discRid pz dz uuid) pr.serialize) = some presp →
      is2xx presp.status = true →
      send (discoveredDecodeRequest dh path (discRid pz dz uuid) rq.serialize) = some dresp →
      process_vllm_two_stage_request_discovered send uuid rq ph pz dh dz path =
        some ([discoveredPrefillRequest ph path (discRid pz dz uuid) pr.serialize,
               discoveredDecodeRequest dh path (discRid pz dz uuid) rq.serialize],
          .ok { status := dresp.status, headers := dresp.headers, body := dresp.body })) := by
  refine ⟨?_, ?_, ?_⟩
  · intro send registry api_key uuid rq pr pu du path presp dresp hpre hs1 hs2
    exact legacy_eval_success _ _ _ _ _ _ _ _ _ _ _ hpre hs1 hs2
  · intro hs kv
    simp [List.mem_filter, and_assoc]
  · intro send uuid rq pr ph pz dh dz path presp dresp hpre hs1 hok hs2
    exact discovered_eval_success _ _ _ _ _ _ _ _ _ _ _ hpre hs1 hok hs2

/-- C5 witness: a concrete legacy run whose decode response carries
`content-type`, `content-length` and `transfer-encoding` returns only
`content-type`. -/
theorem response_copy_spec_witness :
    process_vllm_two_stage_request
        (fun _ => some ⟨200, [("content-type", "application/json"), ("content-length", "2"),
          ("transfer-encoding", "chunked")], "ok"⟩)
        (fun _ _ => none) "" "u" (Json.obj []) "http://pw:8000" "http://dw:8000"
        "/v1/completions" =
      some ([legacyStageRequest "http://pw:8000" "/v1/completions" ""
          (legacyRid (fun _ _ => none) "http://pw:8000" "http://dw:8000" "u")
          (Json.obj [("max_tokens", Json.num 1)]).serialize,
        legacyStageRequest "http://dw:8000" "/v1/completions" ""
          (legacyRid (fun _ _ => none) "http://pw:8000" "http://dw:8000" "u")
          (Json.obj []).serialize],
        .ok { status := 200
              headers := [("content-type", "application/json"), ("content-length", "2"),
                ("transfer-encoding", "chunked")].filter
                (fun kv => kv.1 ≠ "transfer-encoding" && kv.1 ≠ "content-length")
              body := "ok" }) ∧
    [("content-type", "application/json"), ("content-length", "2"),
      ("transfer-encoding", "chunked")].filter
      (fun kv => kv.1 ≠ "transfer-encoding" && kv.1 ≠ "content-length") =
      [("content-type", "application/json")] :=
  ⟨response_copy_spec.1
    (fun _ => some ⟨200, [("content-type", "application/json"), ("content-length", "2"),
      ("transfer-encoding", "chunked")], "ok"⟩)
    (fun _ _ => none) "" "u" (Json.obj []) (Json.obj [("max_tokens", Json.num 1)])
    "http://pw:8000" "http://dw:8000" "/v1/completions"
    ⟨200, [("content-type", "application/json"), ("content-length", "2"),
      ("transfer-encoding", "chunked")], "ok"⟩
    ⟨200, [("content-type", "application/json"), ("content-length", "2"),
      ("transfer-encoding", "chunked")], "ok"⟩
    rfl rfl rfl, by decide⟩

/-- C6: when either instance list obtained from service discovery
is empty, `process_vllm_request` answers 503 (SERVICE_UNAVAILABLE) with
an empty outbound trace — no network request is sent — no matter what
the network, the policies or the body are. -/
theorem no_workers_503 (send : Network) (prefill_policy decode_policy : Policy)
    (uuid : String) (request_json : Json)
    (prefill_instances decode_instances : List (String × String)) (path : String)
    (h : prefill_instances = [] ∨ decode_instances = []) :
    process_vllm_request send prefill_policy decode_policy uuid request_json
      prefill_instances decode_instances path =
      some ([], plainResponse 503
        ("No workers available via service discovery: " ++
          toString prefill_instances.length ++ " prefill, " ++
          toString decode_instances.length ++ " decode")) := by
  unfold process_vllm_request
  rcases h with h | h <;> subst h <;> simp

/-- C6 witness: an empty prefill list with one decode instance yields
the 503 response and an empty trace. -/
theorem no_workers_503_witness :
    process_vllm_request (fun _ => none) (fun _ _ => none) (fun _ _ => none) "u"
      (Json.obj []) [] [("10.0.0.1:8001", "10.0.0.1:5556")] "/v1/completions" =
      some ([], plainResponse 503
        ("No workers available via service discovery: " ++
          toString (List.length ([] : List (String × String))) ++ " prefill, " ++
          toString [("10.0.0.1:8001", "10.0.0.1:5556")].length ++ " decode")) :=
  no_workers_503 (fun _ => none) (fun _ _ => none) (fun _ _ => none) "u" (Json.obj [])
    [] [("10.0.0.1:8001", "10.0.0.1:5556")] "/v1/completions" (Or.inl rfl)

/-! ## C9: prefill CLI argument consumption -/

/-- Unfolding `toLowerStr` to its underlying character map. -/
theorem toLowerStr_data (s : String) :
    (toLowerStr s).data = s.data.map Char.toLower := rfl

/-- A token starting with `--` neither parses as a `u16` nor lowercases
to `none`, so the consumption test's `--` guard is redundant. -/
theorem specConsumesPort_of_dashdash (t : String) (h : strStartsWith t "--" = true) :
    specConsumesPort t = false := by
  have hdd : ("--" : String).data = ['-', '-'] := rfl
  unfold strStartsWith at h
  rw [hdd] at h
  obtain ⟨rest, hrest⟩ : ∃ rest, t.data = '-' :: '-' :: rest := by
    cases hd : t.data with
    | nil => rw [hd] at h; simp [List.isPrefixOf] at h
    | cons c cs =>
      cases cs with
      | nil =>
        rw [hd] at h
        simp [List.isPrefixOf] at h
      | cons c2 cs2 =>
        rw [hd] at h
        simp [List.isPrefixOf] at h
        obtain ⟨h1, h2⟩ := h
        subst h1
        subst h2
        exact ⟨cs2, rfl⟩
  have hparse : parseU16 t = none := by
    unfold parseU16
    rw [hrest]
    simp
  have hlower : toLowerStr t ≠ "none" := by
    intro he
    have hdata := congrArg String.data he
    rw [toLowerStr_data, hrest] at hdata
    simp at hdata
  unfold specConsumesPort
  rw [hparse]
  simp [hlower]

/-- The consumption test agrees with the amended rule for in-range
tokens. -/
theorem portTokenConsumed_eq_spec (args : List String) (j : Nat) (hj : j < args.length) :
    portTokenConsumed args j = specConsumesPort (args.getD j "") := by
  unfold portTokenConsumed
  cases hsw : strStartsWith (args.getD j "") "--" with
  | true =>
    rw [specConsumesPort_of_dashdash _ hsw]
    simp
  | false =>
    unfold specConsumesPort
    simp [hj]

/-- Out-of-range tokens are never consumed. -/
theorem portTokenConsumed_oob (args : List String) (j : Nat) (hj : ¬ j < args.length) :
    portTokenConsumed args j = false := by
  unfold portTokenConsumed
  simp [hj]

/-- The recorded port value for in-range tokens is the `u16` parse. -/
theorem portTokenValue_eq_spec (args : List String) (j : Nat) (hj : j < args.length) :
    portTokenValue args j = parseU16 (args.getD j "") := by
  unfold portTokenValue
  cases hsw : strStartsWith (args.getD j "") "--" with
  | true =>
    rw [if_neg (by simp)]
    have h := specConsumesPort_of_dashdash _ hsw
    unfold specConsumesPort at h
    simp only [Bool.or_eq_false_iff] at h
    cases hp : parseU16 (args.getD j "") with
    | none => rfl
    | some p => rw [hp] at h; simp at h
  | false =>
    rw [if_pos ⟨hj, rfl⟩]

/-- Out-of-range or guarded tokens record no port. -/
theorem portTokenValue_oob (args : List String) (j : Nat) (hj : ¬ j < args.length) :
    portTokenValue args j = none := by
  unfold portTokenValue
  rw [if_neg (by intro hc; exact hj hc.1)]

/-- Failing the consumption test forces a failed `u16` parse. -/
theorem parseU16_none_of_not_consumed (t : String) (h : specConsumesPort t = false) :
    parseU16 t = none := by
  unfold specConsumesPort at h
  simp only [Bool.or_eq_false_iff] at h
  cases hp : parseU16 t with
  | none => rfl
  | some p => rw [hp] at h; simp at h

/-- Unfolding equations of the reference entry semantics. -/
theorem specPrefillEntries_nil : specPrefillEntries [] = [] := by
  simp [specPrefillEntries]

/-- A lone trailing `--prefill` yields no entry. -/
theorem specPrefillEntries_prefill_one : specPrefillEntries ["--prefill"] = [] := by
  simp [specPrefillEntries]

/-- A final `--prefill url` pair: one entry, no port. -/
theorem specPrefillEntries_prefill_two (url : String) :
    specPrefillEntries ["--prefill", url] = [(url, none)] := by
  simp [specPrefillEntries]

/-- For `--prefill url tok ...`, the port token is consumed per the amended
rule, otherwise rescanned. -/
theorem specPrefillEntries_prefill_cons (url tok : String) (rest : List String) :
    specPrefillEntries ("--prefill" :: url :: tok :: rest) =
      if specConsumesPort tok then (url, parseU16 tok) :: specPrefillEntries rest
      else (url, none) :: specPrefillEntries (tok :: rest) := by
  simp [specPrefillEntries]

/-- A non-`--prefill` head contributes no entry. -/
theorem specPrefillEntries_cons_of_ne (a : String) (rest : List String)
    (h : a ≠ "--prefill") :
    specPrefillEntries (a :: rest) = specPrefillEntries rest := by
  match rest with
  | [] => simp [specPrefillEntries, h]
  | [url] =>
    simp only [specPrefillEntries, if_neg h]
    by_cases hu : url = "--prefill" <;> simp [specPrefillEntries, hu]
  | url :: tok :: rest3 => simp [specPrefillEntries, h]

/-- Unfolding equations of the reference filter semantics. -/
theorem specFilterArgs_nil : specFilterArgs [] = [] := by
  simp [specFilterArgs]

/-- A trailing `--prefill` with no URL is kept. -/
theorem specFilterArgs_prefill_one : specFilterArgs ["--prefill"] = ["--prefill"] := by
  simp [specFilterArgs]

/-- A final `--prefill url` pair: both dropped. -/
theorem specFilterArgs_prefill_two (url : String) :
    specFilterArgs ["--prefill", url] = [] := by
  simp [specFilterArgs]

/-- For `--prefill url tok ...`, the flag and URL are dropped, the token
iff consumed. -/
theorem specFilterArgs_prefill_cons (url tok : String) (rest : List String) :
    specFilterArgs ("--prefill" :: url :: tok :: rest) =
      if specConsumesPort tok then specFilterArgs rest
      else specFilterArgs (tok :: rest) := by
  simp [specFilterArgs]

/-- A non-`--prefill` head is kept by the filter. -/
theorem specFilterArgs_cons_of_ne (a : String) (rest : List String)
    (h : a ≠ "--prefill") :
    specFilterArgs (a :: rest) = a :: specFilterArgs rest := by
  match rest with
  | [] => simp [specFilterArgs, h]
  | [url] => simp [specFilterArgs, h]
  | url :: tok :: rest3 => simp [specFilterArgs, h]

/-- The fuelled parse loop refines the list-structured reference
semantics: from position `i` with enough fuel it computes the entries
of the remaining arguments. -/
theorem parsePrefillLoop_eq_spec (args : List String) (fuel i : Nat)
    (hfuel : args.length ≤ i + fuel) :
    parsePrefillLoop args fuel i = specPrefillEntries (args.drop i) := by
  induction fuel generalizing i with
  | zero =>
    rw [List.drop_eq_nil_of_le (by omega), specPrefillEntries_nil]
    rfl
  | succ fuel ih =>
    by_cases hi : i < args.length
    · have hdropi := List.drop_eq_getElem_cons hi
      have hgi : args.getD i "" = args[i] := List.getD_eq_getElem args "" hi
      simp only [parsePrefillLoop, if_pos hi]
      by_cases hp : args.getD i "" = "--prefill" ∧ i + 1 < args.length
      · obtain ⟨hpre, hi1⟩ := hp
        have hpre' : args[i] = "--prefill" := hgi.symm.trans hpre
        rw [if_pos ⟨hpre, hi1⟩]
        have hdrop1 := List.drop_eq_getElem_cons hi1
        have hg1 : args.getD (i + 1) "" = args[i + 1] := List.getD_eq_getElem args "" hi1
        by_cases hi2 : i + 2 < args.length
        · have hdrop2 := List.drop_eq_getElem_cons hi2
          have hg2 : args.getD (i + 2) "" = args[i + 2] := List.getD_eq_getElem args "" hi2
          rw [hdropi, hdrop1, hdrop2, hpre', specPrefillEntries_prefill_cons,
            portTokenConsumed_eq_spec args (i + 2) hi2,
            portTokenValue_eq_spec args (i + 2) hi2, hg2, hg1]
          have h23 : i + 2 + 1 = i + 3 := by omega
          cases hcp : specConsumesPort args[i + 2] with
          | true =>
            rw [if_pos rfl, if_pos rfl, ih (i + 3) (by omega), h23]
          | false =>
            rw [if_neg (by simp), if_neg (by simp),
              parseU16_none_of_not_consumed _ hcp, ih (i + 2) (by omega), hdrop2, h23]
        · have hdrop2 : args.drop (i + 2) = [] := List.drop_eq_nil_of_le (by omega)
          have h11 : i + 1 + 1 = i + 2 := by omega
          rw [hdropi, hdrop1, h11, hdrop2, hpre', specPrefillEntries_prefill_two,
            portTokenConsumed_oob args (i + 2) hi2, portTokenValue_oob args (i + 2) hi2,
            if_neg (by simp), hg1, ih (i + 2) (by omega), hdrop2, specPrefillEntries_nil]
      · rw [if_neg hp, ih (i + 1) (by omega), hdropi]
        by_cases hpre : args[i] = "--prefill"
        · have hi1 : ¬ i + 1 < args.length := fun hc => hp ⟨hgi.symm ▸ hpre, hc⟩
          have hdrop1 : args.drop (i + 1) = [] := List.drop_eq_nil_of_le (by omega)
          rw [hdrop1, hpre, specPrefillEntries_prefill_one, specPrefillEntries_nil]
        · rw [specPrefillEntries_cons_of_ne _ _ hpre]
    · rw [List.drop_eq_nil_of_le (by omega), specPrefillEntries_nil]
      simp only [parsePrefillLoop, if_neg hi]

/-- The fuelled filter loop refines the list-structured reference
semantics. -/
theorem filterLoop_eq_spec (args : List String) (fuel i : Nat)
    (hfuel : args.length ≤ i + fuel) :
    filterLoop args fuel i = specFilterArgs (args.drop i) := by
  induction fuel generalizing i with
  | zero =>
    rw [List.drop_eq_nil_of_le (by omega), specFilterArgs_nil]
    rfl
  | succ fuel ih =>
    by_cases hi : i < args.length
    · have hdropi := List.drop_eq_getElem_cons hi
      have hgi : args.getD i "" = args[i] := List.getD_eq_getElem args "" hi
      simp only [filterLoop, if_pos hi]
      by_cases hp : args.getD i "" = "--prefill" ∧ i + 1 < args.length
      · obtain ⟨hpre, hi1⟩ := hp
        have hpre' : args[i] = "--prefill" := hgi.symm.trans hpre
        rw [if_pos ⟨hpre, hi1⟩]
        have hdrop1 := List.drop_eq_getElem_cons hi1
        by_cases hi2 : i + 2 < args.length
        · have hdrop2 := List.drop_eq_getElem_cons hi2
          have hg2 : args.getD (i + 2) "" = args[i + 2] := List.getD_eq_getElem args "" hi2
          rw [hdropi, hdrop1, hdrop2, hpre', specFilterArgs_prefill_cons,
            portTokenConsumed_eq_spec args (i + 2) hi2, hg2]
          have h23 : i + 2 + 1 = i + 3 := by omega
          cases hcp : specConsumesPort args[i + 2] with
          | true =>
            rw [if_pos rfl, if_pos rfl, ih (i + 3) (by omega), h23]
          | false =>
            rw [if_neg (by simp), if_neg (by simp), ih (i + 2) (by omega), hdrop2, h23]
        · have hdrop2 : args.drop (i + 2) = [] := List.drop_eq_nil_of_le (by omega)
          have h11 : i + 1 + 1 = i + 2 := by omega
          rw [hdropi, hdrop1, h11, hdrop2, hpre', specFilterArgs_prefill_two,
            portTokenConsumed_oob args (i + 2) hi2, if_neg (by simp),
            ih (i + 2) (by omega), hdrop2, specFilterArgs_nil]
      · rw [if_neg hp, ih (i + 1) (by omega), hdropi]
        by_cases hpre : args[i] = "--prefill"
        · have hi1 : ¬ i + 1 < args.length := fun hc => hp ⟨hgi.symm ▸ hpre, hc⟩
          have hdrop1 : args.drop (i + 1) = [] := List.drop_eq_nil_of_le (by omega)
          rw [hdrop1, hpre, hgi, hpre, specFilterArgs_prefill_one, specFilterArgs_nil]
        · rw [hgi, specFilterArgs_cons_of_ne _ _ hpre]
    · rw [List.drop_eq_nil_of_le (by omega), specFilterArgs_nil]
      simp only [filterLoop, if_neg hi]

/-- C9 counterexample: the token `NONE` neither parses as a `u16`
nor is the literal `none`, yet `main`'s filtering consumes it (it is
absent from the filtered arguments) because the code compares
case-insensitively; the recorded bootstrap port is `None` either way. -/
theorem uppercase_none_consumed :
    parseU16 "NONE" = none ∧
    "NONE" ≠ "none" ∧
    filterPrefillArgs ["prog", "--prefill", "http://pw:8000", "NONE", "--policy"] =
      ["prog", "--policy"] ∧
    parse_prefill_args ["prog", "--prefill", "http://pw:8000", "NONE", "--policy"] =
      [("http://pw:8000", none)] :=
  ⟨rfl, by decide, rfl, rfl⟩

/-- C9 amended: for every command line, each occurrence of
`--prefill` consumes the following token as the URL of one prefill
entry, and consumes one further token as that entry's bootstrap port
only if that token parses as a 16-bit unsigned integer (yielding
`Some(port)`) or equals `none` case-insensitively (yielding `None`);
any other following token is not consumed (it is rescanned, and kept by
`main`'s filtering) and the entry's bootstrap port is `None`.  Stated
as: the parse loop and the filter loop agree with the reference
semantics `specPrefillEntries` / `specFilterArgs` written from that
rule. -/
theorem parse_prefill_args_spec (args : List String) :
    parse_prefill_args args = specPrefillEntries args ∧
    filterPrefillArgs args = specFilterArgs args := by
  constructor
  · have h := parsePrefillLoop_eq_spec args args.length 0 (by omega)
    simpa using h
  · have h := filterLoop_eq_spec args args.length 0 (by omega)
    simpa using h

end VllmRouter
